import Mathlib

/-!
Verification development for `latentsync/pipelines/lipsync_pipeline.py`
(`LipsyncPipeline`).  The definitions below are a shallow embedding of the
windowing, latent-preparation, guidance, compositing, restoration and
run-orchestration logic of `LipsyncPipeline.__call__` and its helpers.
Tensors are modelled as functions or lists of rationals; external
collaborators (denoiser, codec, scheduler step math, face aligner) are
abstract parameters, exactly as the pipeline treats them.
-/

namespace LatentSync

/-- Python slice `xs[i*N : (i+1)*N]`, as used for `whisper_chunks[i*num_frames:(i+1)*num_frames]`
(line 418), `faces[i*num_frames:(i+1)*num_frames]` (line 426) and the temporal latent slice
(line 427): drop `i*N` elements, then take `(i+1)*N - i*N = N`. -/
def chunk_slice (xs : List α) (i N : ℕ) : List α :=
  (xs.drop (i * N)).take N

/-- Lines 396-401: `num_inferences = min(len(faces), len(whisper_chunks)) // num_frames`
when `unet.add_audio_layer`, else `len(faces) // num_frames`. -/
def num_inferences_calc (addAudioLayer : Bool) (numFaces numWhisperChunks num_frames : ℕ) : ℕ :=
  if addAudioLayer then min numFaces numWhisperChunks / num_frames
  else numFaces / num_frames

/-- Frame-count bookkeeping of the per-chunk loop (lines 416-477): chunk `i` processes
`faces[i*N:(i+1)*N]`; decoding and compositing are frame-count preserving, so each chunk's
contribution to `synced_video_frames` is represented by the face slice it was generated from. -/
def synced_video_chunks (faces : List α) (N n_inf : ℕ) : List (List α) :=
  (List.range n_inf).map fun i => chunk_slice faces i N

/-- Line 480-482: `restore_video(torch.cat(synced_video_frames), ...)` emits one output frame
per face in the concatenated chunk outputs, so the output frame count is the length of the
concatenation. -/
def restored_frame_count (faces : List α) (N n_inf : ℕ) : ℕ :=
  (synced_video_chunks faces N n_inf).flatten.length

theorem chunk_slice_getElem? (xs : List α) (i N j : ℕ) (hj : j < N) :
    (chunk_slice xs i N)[j]? = xs[i * N + j]? := by
  unfold chunk_slice
  rw [List.getElem?_take_of_lt hj, List.getElem?_drop]

theorem chunk_slice_length (xs : List α) (i N : ℕ) (h : (i + 1) * N ≤ xs.length) :
    (chunk_slice xs i N).length = N := by
  unfold chunk_slice
  rw [List.length_take, List.length_drop]
  have h' : i * N + N ≤ xs.length := by
    calc i * N + N = (i + 1) * N := by ring
      _ ≤ xs.length := h
  omega

theorem restored_frame_count_eq (faces : List α) (N n_inf : ℕ)
    (h : n_inf * N ≤ faces.length) :
    restored_frame_count faces N n_inf = N * n_inf := by
  unfold restored_frame_count synced_video_chunks
  rw [List.length_flatten, List.map_map]
  have hlen : ∀ i ∈ List.range n_inf,
      ((List.length ∘ fun i => chunk_slice faces i N) i) = (fun _ => N) i := by
    intro i hi
    have hi' : i < n_inf := List.mem_range.mp hi
    have : (i + 1) * N ≤ faces.length := by
      calc (i + 1) * N ≤ n_inf * N := Nat.mul_le_mul_right _ hi'
        _ ≤ faces.length := h
    simpa using chunk_slice_length faces i N this
  rw [List.map_congr_left hlen]
  simp [List.map_const', Nat.mul_comm]

/-- C1: with window length `N = num_frames` and usable length `L`
(`min(#faces, #whisper_chunks)` under audio conditioning, else `#faces`), the number of
processed chunks is `⌊L/N⌋`; chunk `i` reads face and audio indices `[i*N, (i+1)*N)`;
the total number of output frames is `N * ⌊L/N⌋` and never exceeds `L`: the trailing
window that would be shorter than `N` is dropped, not padded. -/
theorem C1_windowing (addAudioLayer : Bool) (faces : List α) (whisper : List β)
    (N : ℕ) (_hN : 0 < N) :
    num_inferences_calc addAudioLayer faces.length whisper.length N
      = (if addAudioLayer then min faces.length whisper.length else faces.length) / N
    ∧ (∀ i j, j < N →
        (chunk_slice faces i N)[j]? = faces[i * N + j]?
        ∧ (chunk_slice whisper i N)[j]? = whisper[i * N + j]?)
    ∧ (∀ i, i < num_inferences_calc addAudioLayer faces.length whisper.length N →
        (chunk_slice faces i N).length = N
        ∧ (addAudioLayer = true → (chunk_slice whisper i N).length = N))
    ∧ restored_frame_count faces N (num_inferences_calc addAudioLayer faces.length whisper.length N)
      = N * ((if addAudioLayer then min faces.length whisper.length else faces.length) / N)
    ∧ N * ((if addAudioLayer then min faces.length whisper.length else faces.length) / N)
      ≤ (if addAudioLayer then min faces.length whisper.length else faces.length) := by
  have hL : num_inferences_calc addAudioLayer faces.length whisper.length N
      = (if addAudioLayer then min faces.length whisper.length else faces.length) / N := by
    unfold num_inferences_calc
    cases addAudioLayer <;> simp
  have hLe : (if addAudioLayer then min faces.length whisper.length else faces.length)
      ≤ faces.length := by
    cases addAudioLayer <;> simp
  refine ⟨hL, ?_, ?_, ?_, ?_⟩
  · intro i j hj
    exact ⟨chunk_slice_getElem? faces i N j hj, chunk_slice_getElem? whisper i N j hj⟩
  · intro i hi
    rw [hL] at hi
    constructor
    · apply chunk_slice_length
      have h1 : (i + 1) * N
          ≤ ((if addAudioLayer then min faces.length whisper.length else faces.length) / N) * N :=
        Nat.mul_le_mul_right _ hi
      have h2 : ((if addAudioLayer then min faces.length whisper.length else faces.length) / N) * N
          ≤ (if addAudioLayer then min faces.length whisper.length else faces.length) :=
        Nat.div_mul_le_self _ _
      omega
    · intro ha
      subst ha
      simp only [if_pos rfl] at hi
      apply chunk_slice_length
      have h1 : (i + 1) * N ≤ (min faces.length whisper.length / N) * N :=
        Nat.mul_le_mul_right _ hi
      have h2 : (min faces.length whisper.length / N) * N ≤ min faces.length whisper.length :=
        Nat.div_mul_le_self _ _
      have h3 : min faces.length whisper.length ≤ whisper.length := min_le_right _ _
      omega
  · rw [hL]
    apply restored_frame_count_eq
    have h2 : ((if addAudioLayer then min faces.length whisper.length else faces.length) / N) * N
        ≤ (if addAudioLayer then min faces.length whisper.length else faces.length) :=
      Nat.div_mul_le_self _ _
    omega
  · rw [Nat.mul_comm]
    exact Nat.div_mul_le_self _ _

/-- Witness for C1 at the literal scenario of the spec: 40 faces, 45 audio chunks,
`num_frames = 16` under audio conditioning gives 2 chunks and 32 output frames. -/
theorem C1_windowing_witness :
    num_inferences_calc true 40 45 16 = 2
    ∧ restored_frame_count (List.replicate 40 (0 : ℕ)) 16 (num_inferences_calc true 40 45 16)
      = 32 := by
  have h := C1_windowing true (List.replicate 40 (0 : ℕ)) (List.replicate 45 (0 : ℕ)) 16
    (by norm_num)
  constructor
  · simpa using h.1
  · have h4 := h.2.2.2.1
    simpa using h4

/-- Row-major flat index into the single-frame noise tensor of shape
`(1, C, 1, H', W')` drawn by `torch.randn` in `prepare_latents` (lines 161-170): the draw
consumes one generator value per `(channel, y, x)` position, the temporal extent being 1. -/
def randn_flat_index (H W c y x : ℕ) : ℕ :=
  (c * H + y) * W + x

/-- `prepare_latents` (lines 161-173): `torch.randn` of shape
`(1, C, 1, H//f, W//f)` from the caller-supplied generator stream `s`, then
`.repeat(1, 1, num_frames, 1, 1)` (every temporal index holds the same single drawn frame),
then multiplication by `scheduler.init_noise_sigma`.  The result is the value of the latent
at `(channel c, temporal index f, y, x)`. -/
def prepare_latents (init_noise_sigma : ℚ) (s : ℕ → ℚ) (H W : ℕ) :
    ℕ → ℕ → ℕ → ℕ → ℚ :=
  fun c _f y x => init_noise_sigma * s (randn_flat_index H W c y x)

/-- Modelled from the spec: the noise draw the claim describes, "per-frame noise for all
chunks" — an independent generator value for every `(channel, temporal, y, x)` position of
the full-length tensor of temporal extent `T = num_frames * num_inferences`, scaled by the
initial-noise sigma.  This is what `torch.randn` at the full temporal shape would produce;
it is compared against what `prepare_latents` actually computes. -/
def prepare_latents_per_frame (init_noise_sigma : ℚ) (s : ℕ → ℚ) (T H W : ℕ) :
    ℕ → ℕ → ℕ → ℕ → ℚ :=
  fun c f y x => init_noise_sigma * s (((c * T + f) * H + y) * W + x)

/-- Line 427: `all_latents[:, :, i*num_frames : (i+1)*num_frames]` — the temporal slice of
the run-wide latent tensor used as chunk `i`'s starting latent. -/
def chunk_latents (all_latents : ℕ → ℕ → ℕ → ℕ → ℚ) (i N : ℕ) :
    ℕ → ℕ → ℕ → ℕ → ℚ :=
  fun c f y x => all_latents c (i * N + f) y x

/-- Counterexample to C2: the noise latent is not per-frame noise.  With the identity
generator stream, sigma 1, one channel and a 1x1 spatial grid, the latent the code
produces at temporal index 1 is the draw for temporal index 0 again (value 0), whereas
an actual full-length per-frame draw would hold the fresh value 1 there. -/
theorem C2_counterexample :
    prepare_latents 1 (fun n => (n : ℚ)) 1 1 0 1 0 0
      ≠ prepare_latents_per_frame 1 (fun n => (n : ℚ)) 2 1 1 0 1 0 0 := by
  unfold prepare_latents prepare_latents_per_frame randn_flat_index
  norm_num

/-- C2 amended: the noise latent is sampled once per run — but only for a single temporal
frame — using the caller-supplied generator, is repeated across the full output length
(so every temporal index, hence every chunk, holds the same noise frame), is pre-scaled by
the scheduler's initial-noise sigma, and chunk `i`'s starting latent is the temporal slice
`[i*N, (i+1)*N)` of that one tensor. -/
theorem C2_noise_latent (init_noise_sigma : ℚ) (s : ℕ → ℚ) (H W : ℕ)
    (i N c f f' y x : ℕ) :
    chunk_latents (prepare_latents init_noise_sigma s H W) i N c f y x
      = prepare_latents init_noise_sigma s H W c (i * N + f) y x
    ∧ prepare_latents init_noise_sigma s H W c f y x
      = init_noise_sigma * s (randn_flat_index H W c y x)
    ∧ prepare_latents init_noise_sigma s H W c f y x
      = prepare_latents init_noise_sigma s H W c f' y x := by
  exact ⟨rfl, rfl, rfl⟩

/-- The observable side-effecting stages of `__call__` (lines 341-499), in program order. -/
inductive Event where
  | checkFfmpeg
  | faceProcessing
  | readAudio
  | checkInputs
  | schedulerSetup
  | audioFeatureExtraction
  | latentAllocation
  | denoiseChunk (i : ℕ)
  | restoreVideo
  | audioTrim
  | tempDirReset
  | writeVideoFile
  | writeAudioFile
  | muxCommand
deriving DecidableEq

/-- The three ways `check_inputs` (lines 153-159) can raise. -/
inductive ConfigError where
  | heightWidthMismatch
  | notDivisibleBy8
  | invalidCallbackSteps
deriving DecidableEq

/-- `check_inputs` (lines 153-159): assert `height == width`, then reject dimensions not
divisible by 8, then reject a `callback_steps` that is `None` or not a positive integer. -/
def check_inputs (height width : ℕ) (callback_steps : Option ℤ) : Option ConfigError :=
  if height ≠ width then some ConfigError.heightWidthMismatch
  else if height % 8 ≠ 0 ∨ width % 8 ≠ 0 then some ConfigError.notDivisibleBy8
  else
    match callback_steps with
    | none => some ConfigError.invalidCallbackSteps
    | some k => if k ≤ 0 then some ConfigError.invalidCallbackSteps else none

/-- The stages executed between a successful `check_inputs` (line 388) and the temp-dir
reset (line 490): scheduler setup (line 391), audio feature extraction (lines 396-398, only
with an audio layer), the run-wide latent allocation (line 405), the per-chunk denoising
loop (lines 416-477), restoration (line 480) and audio trimming (lines 484-485). -/
def pre_write_events (addAudioLayer : Bool) (n_inf : ℕ) : List Event :=
  [Event.schedulerSetup]
    ++ (if addAudioLayer then [Event.audioFeatureExtraction] else [])
    ++ [Event.latentAllocation]
    ++ (List.range n_inf).map Event.denoiseChunk
    ++ [Event.restoreVideo, Event.audioTrim]

/-- The trace of `__call__` (lines 341-499) together with the raised configuration error,
if any: `check_ffmpeg_installed` (line 373), `affine_transform_video` — frame reading, face
detection and tensor stacking (line 380) — `read_audio` (line 381), then `check_inputs`
(line 388); only if validation passes do the remaining stages run, ending with the temp-dir
delete-and-recreate (lines 490-493), the intermediate video and audio writes
(lines 495-496) and the mux command (lines 498-499). -/
def pipeline_call (addAudioLayer : Bool)
    (numFaces numWhisperChunks num_frames height width : ℕ)
    (callback_steps : Option ℤ) : List Event × Option ConfigError :=
  match check_inputs height width callback_steps with
  | some e =>
      ([Event.checkFfmpeg, Event.faceProcessing, Event.readAudio, Event.checkInputs], some e)
  | none =>
      ([Event.checkFfmpeg, Event.faceProcessing, Event.readAudio, Event.checkInputs]
        ++ pre_write_events addAudioLayer
            (num_inferences_calc addAudioLayer numFaces numWhisperChunks num_frames)
        ++ [Event.tempDirReset, Event.writeVideoFile, Event.writeAudioFile, Event.muxCommand],
       none)

/-- Counterexample to C3: with height = width = 100 (not divisible by 8) the run does raise
a configuration error, but the frame/face processing and audio read — and the face tensor
stacking inside them — have already executed by then, contradicting "before any frame/audio
processing and before any tensor is allocated". -/
theorem C3_counterexample :
    (pipeline_call true 40 45 16 100 100 (some 1)).2 = some ConfigError.notDivisibleBy8
    ∧ Event.faceProcessing ∈ (pipeline_call true 40 45 16 100 100 (some 1)).1
    ∧ Event.readAudio ∈ (pipeline_call true 40 45 16 100 100 (some 1)).1 := by
  decide

/-- C3 amended: an invalid configuration (height ≠ width, a dimension not divisible by 8,
or a non-positive / missing `callback_steps`) raises after face extraction and audio
reading but before scheduler setup, audio feature extraction, noise-latent allocation, any
denoising work, and any output write — so the run still produces no partial output. -/
theorem C3_config_error (addAudioLayer : Bool)
    (numFaces numWhisperChunks num_frames height width : ℕ)
    (callback_steps : Option ℤ) (e : ConfigError)
    (h : check_inputs height width callback_steps = some e) :
    (pipeline_call addAudioLayer numFaces numWhisperChunks num_frames height width
        callback_steps).2 = some e
    ∧ (pipeline_call addAudioLayer numFaces numWhisperChunks num_frames height width
        callback_steps).1
      = [Event.checkFfmpeg, Event.faceProcessing, Event.readAudio, Event.checkInputs]
    ∧ Event.latentAllocation ∉ (pipeline_call addAudioLayer numFaces numWhisperChunks
        num_frames height width callback_steps).1
    ∧ (∀ i, Event.denoiseChunk i ∉ (pipeline_call addAudioLayer numFaces numWhisperChunks
        num_frames height width callback_steps).1)
    ∧ Event.writeVideoFile ∉ (pipeline_call addAudioLayer numFaces numWhisperChunks
        num_frames height width callback_steps).1
    ∧ Event.muxCommand ∉ (pipeline_call addAudioLayer numFaces numWhisperChunks
        num_frames height width callback_steps).1 := by
  unfold pipeline_call
  rw [h]
  refine ⟨rfl, rfl, by simp, fun i => by simp, by simp, by simp⟩

/-- Witness for C3 at a concrete invalid input (height 100, width 100). -/
theorem C3_config_error_witness :
    check_inputs 100 100 (some 1) = some ConfigError.notDivisibleBy8
    ∧ (pipeline_call true 40 45 16 100 100 (some 1)).1
      = [Event.checkFfmpeg, Event.faceProcessing, Event.readAudio, Event.checkInputs] := by
  have h : check_inputs 100 100 (some 1) = some ConfigError.notDivisibleBy8 := by decide
  exact ⟨h, (C3_config_error true 40 45 16 100 100 (some 1)
    ConfigError.notDivisibleBy8 h).2.1⟩

theorem tempDirReset_not_mem_pre (a : Bool) (n : ℕ) :
    Event.tempDirReset ∉ pre_write_events a n := by
  unfold pre_write_events
  cases a <;> simp

theorem denoiseChunk_mem_pre (a : Bool) (n i : ℕ) (hi : i < n) :
    Event.denoiseChunk i ∈ pre_write_events a n := by
  unfold pre_write_events
  exact List.mem_append.mpr (Or.inl (List.mem_append.mpr
    (Or.inr (List.mem_map.mpr ⟨i, List.mem_range.mpr hi, rfl⟩))))

/-- Counterexample to C9: the temporary working directory is not deleted and recreated at
the start of the run.  In a concrete successful run, face processing, the latent
allocation, and both denoising chunks all occur strictly before the temp-dir reset in the
trace. -/
theorem C9_counterexample :
    Event.tempDirReset ∈ (pipeline_call true 40 45 16 256 256 (some 1)).1
    ∧ (pipeline_call true 40 45 16 256 256 (some 1)).1.indexOf Event.faceProcessing
      < (pipeline_call true 40 45 16 256 256 (some 1)).1.indexOf Event.tempDirReset
    ∧ (pipeline_call true 40 45 16 256 256 (some 1)).1.indexOf (Event.denoiseChunk 1)
      < (pipeline_call true 40 45 16 256 256 (some 1)).1.indexOf Event.tempDirReset := by
  decide

/-- C9 amended: the temporary directory is deleted and recreated exactly once per
successful run, at the end — after face/audio processing, all denoising and restoration,
immediately before the intermediate artifact writes and the mux — and a run that fails
validation performs no temp-dir cleanup at all (nor does any run clean the directory up
after the mux). -/
theorem C9_tempdir (addAudioLayer : Bool)
    (numFaces numWhisperChunks num_frames height width : ℕ)
    (callback_steps : Option ℤ) :
    ((pipeline_call addAudioLayer numFaces numWhisperChunks num_frames height width
        callback_steps).2.isSome →
      Event.tempDirReset ∉ (pipeline_call addAudioLayer numFaces numWhisperChunks
        num_frames height width callback_steps).1)
    ∧ ((pipeline_call addAudioLayer numFaces numWhisperChunks num_frames height width
        callback_steps).2 = none →
      ∃ A, (pipeline_call addAudioLayer numFaces numWhisperChunks num_frames height width
            callback_steps).1
          = A ++ [Event.tempDirReset, Event.writeVideoFile, Event.writeAudioFile,
              Event.muxCommand]
        ∧ Event.tempDirReset ∉ A
        ∧ Event.faceProcessing ∈ A
        ∧ Event.readAudio ∈ A
        ∧ Event.restoreVideo ∈ A
        ∧ ∀ i, i < num_inferences_calc addAudioLayer numFaces numWhisperChunks num_frames →
            Event.denoiseChunk i ∈ A) := by
  unfold pipeline_call
  cases hc : check_inputs height width callback_steps with
  | some e =>
      refine ⟨fun _ => by simp, fun hnone => by simp at hnone⟩
  | none =>
      refine ⟨fun hsome => by simp at hsome, fun _ => ?_⟩
      refine ⟨[Event.checkFfmpeg, Event.faceProcessing, Event.readAudio, Event.checkInputs]
        ++ pre_write_events addAudioLayer
            (num_inferences_calc addAudioLayer numFaces numWhisperChunks num_frames),
        by simp, ?_, by simp, by simp, ?_, ?_⟩
      · intro hmem
        rcases List.mem_append.mp hmem with h | h
        · simp at h
        · exact tempDirReset_not_mem_pre _ _ h
      · refine List.mem_append.mpr (Or.inr ?_)
        unfold pre_write_events
        simp
      · intro i hi
        exact List.mem_append.mpr (Or.inr (denoiseChunk_mem_pre _ _ _ hi))

/-- Witness for C9 at a concrete valid run and a concrete failing run. -/
theorem C9_tempdir_witness :
    (pipeline_call true 40 45 16 100 100 (some 1)).2.isSome = true
    ∧ Event.tempDirReset ∉ (pipeline_call true 40 45 16 100 100 (some 1)).1
    ∧ ∃ A, (pipeline_call true 40 45 16 256 256 (some 1)).1
        = A ++ [Event.tempDirReset, Event.writeVideoFile, Event.writeAudioFile,
            Event.muxCommand]
      ∧ Event.tempDirReset ∉ A
      ∧ Event.faceProcessing ∈ A
      ∧ Event.readAudio ∈ A
      ∧ Event.restoreVideo ∈ A
      ∧ ∀ i, i < num_inferences_calc true 40 45 16 → Event.denoiseChunk i ∈ A := by
  refine ⟨by decide, ?_, ?_⟩
  · exact (C9_tempdir true 40 45 16 100 100 (some 1)).1 (by decide)
  · exact (C9_tempdir true 40 45 16 256 256 (some 1)).2 (by decide)

/-- The super-resolution invocation made for one face patch, if any. -/
inductive SRCall where
  | none
  | gfpgan (scale : ℚ)
  | codeformer (scale : ℚ)
deriving DecidableEq

/-- Lines 257-259: `scale_h = height / face_h`, `scale_w = width / face_w`,
`scale_factor = max(scale_h, scale_w)` — target box size over patch size, per dimension. -/
def superres_scale_factor (face_h face_w height width : ℕ) : ℚ :=
  max ((height : ℚ) / (face_h : ℚ)) ((width : ℚ) / (face_w : ℚ))

/-- The super-resolution branch of `restore_video` (lines 256-265): if the configured mode
is not "none" and the patch is strictly smaller than the bounding box in either dimension,
dispatch on the mode name with the computed scale factor; otherwise no call is made. -/
def restore_face_sr (superres : String) (face_h face_w height width : ℕ) : SRCall :=
  if superres ≠ "none" ∧ (face_h < height ∨ face_w < width) then
    if superres = "GFPGAN" then
      SRCall.gfpgan (superres_scale_factor face_h face_w height width)
    else if superres = "CodeFormer" then
      SRCall.codeformer (superres_scale_factor face_h face_w height width)
    else SRCall.none
  else SRCall.none

/-- C4: for a configured mode among the documented values, the super-resolution step fires
iff the mode is not "none" and the patch's height or width is strictly below the bounding
box's; when it fires it invokes the configured variant with
`scale_factor = max(target_height/patch_height, target_width/patch_width)`; and it never
fires when the patch meets or exceeds the target in both dimensions. -/
theorem C4_superres_trigger (mode : String) (face_h face_w height width : ℕ)
    (hmode : mode = "none" ∨ mode = "GFPGAN" ∨ mode = "CodeFormer") :
    (restore_face_sr mode face_h face_w height width ≠ SRCall.none
      ↔ mode ≠ "none" ∧ (face_h < height ∨ face_w < width))
    ∧ (mode = "GFPGAN" → restore_face_sr mode face_h face_w height width ≠ SRCall.none →
        restore_face_sr mode face_h face_w height width
          = SRCall.gfpgan (superres_scale_factor face_h face_w height width))
    ∧ (mode = "CodeFormer" → restore_face_sr mode face_h face_w height width ≠ SRCall.none →
        restore_face_sr mode face_h face_w height width
          = SRCall.codeformer (superres_scale_factor face_h face_w height width))
    ∧ (height ≤ face_h → width ≤ face_w →
        restore_face_sr mode face_h face_w height width = SRCall.none) := by
  rcases hmode with h | h | h <;> subst h <;>
    by_cases hsmall : face_h < height ∨ face_w < width <;>
      simp [restore_face_sr, hsmall] <;> omega

/-- Witness for C4: mode "GFPGAN", a 128x128 patch and a 256x192 target box fire the
GFPGAN variant with scale factor 2. -/
theorem C4_superres_trigger_witness :
    restore_face_sr "GFPGAN" 128 128 256 192
      = SRCall.gfpgan (superres_scale_factor 128 128 256 192)
    ∧ superres_scale_factor 128 128 256 192 = 2
    ∧ restore_face_sr "GFPGAN" 256 256 256 192 = SRCall.none := by
  have h := C4_superres_trigger "GFPGAN" 128 128 256 192 (Or.inr (Or.inl rfl))
  have hfire : restore_face_sr "GFPGAN" 128 128 256 192 ≠ SRCall.none :=
    (h.1).mpr ⟨by simp, Or.inl (by norm_num)⟩
  refine ⟨h.2.1 rfl hfire, ?_, ?_⟩
  · unfold superres_scale_factor
    norm_num
  · exact (C4_superres_trigger "GFPGAN" 256 256 256 192
      (Or.inr (Or.inl rfl))).2.2.2 (by norm_num) (by norm_num)

/-- `paste_surrounding_pixels_back` (lines 208-213): pixelwise
`decoded_latents * masks + pixel_values * (1 - masks)`, over an arbitrary index space. -/
def paste_surrounding_pixels_back (decoded_latents pixel_values masks : ι → ℚ) : ι → ℚ :=
  fun p => decoded_latents p * masks p + pixel_values p * (1 - masks p)

/-- Call site, lines 474-476: `paste_surrounding_pixels_back(decoded_latents, pixel_values,
1 - masks, ...)` — the mask argument is the complement of the `masks` tensor returned by
the image processor. -/
def chunk_composite (decoded_latents pixel_values masks : ι → ℚ) : ι → ℚ :=
  paste_surrounding_pixels_back decoded_latents pixel_values (fun p => 1 - masks p)

/-- C5: writing `m` for the inpainting mask (the area to regenerate; modelled from the
spec: the image processor's `masks` tensor — produced outside this file's source — is its
complement `1 - m`, the keep-mask that blanks the mouth region of the masked image), the
per-chunk composite equals `decoded * m + pixel * (1 - m)` pixelwise; in particular, when
the inpainting mask is identically zero the composite equals the input pixels exactly and
the decoded content contributes nothing. -/
theorem C5_compositing (decoded pixel m : ι → ℚ) :
    (∀ p, chunk_composite decoded pixel (fun q => 1 - m q) p
      = decoded p * m p + pixel p * (1 - m p))
    ∧ ((∀ p, m p = 0) → ∀ decoded' p,
        chunk_composite decoded pixel (fun q => 1 - m q) p = pixel p
        ∧ chunk_composite decoded pixel (fun q => 1 - m q) p
          = chunk_composite decoded' pixel (fun q => 1 - m q) p) := by
  constructor
  · intro p
    unfold chunk_composite paste_surrounding_pixels_back
    ring
  · intro hm decoded' p
    simp only [chunk_composite, paste_surrounding_pixels_back, hm p]
    constructor <;> ring

/-- Witness for C5 with a zero inpainting mask on a one-point index space: decoded value 5
against input value 3 yields 3. -/
theorem C5_compositing_witness :
    chunk_composite (fun _ : Unit => (5 : ℚ)) (fun _ => 3) (fun _ => 1 - 0) () = 3 := by
  have h := (C5_compositing (fun _ : Unit => (5 : ℚ)) (fun _ => 3) (fun _ => 0)).2
    (fun _ => rfl) (fun _ => 7) ()
  exact h.1

/-- Line 390: `do_classifier_free_guidance = guidance_scale > 1.0`. -/
def do_classifier_free_guidance (guidance_scale : ℚ) : Bool :=
  decide (1 < guidance_scale)

/-- Line 464: the guidance recombination
`noise_pred_uncond + guidance_scale * (noise_pred_audio - noise_pred_uncond)`. -/
def guided_noise_pred (guidance_scale : ℚ) (pred_uncond pred_cond : ι → ℚ) : ι → ℚ :=
  fun p => pred_uncond p + guidance_scale * (pred_cond p - pred_uncond p)

/-- Lines 455-466: the prediction handed to `scheduler.step` — the recombination when
guidance is active, otherwise the single conditional-branch prediction (no doubled batch
is built in that case). -/
def scheduler_noise_pred (guidance_scale : ℚ) (pred_uncond pred_cond : ι → ℚ) : ι → ℚ :=
  if do_classifier_free_guidance guidance_scale then
    guided_noise_pred guidance_scale pred_uncond pred_cond
  else pred_cond

/-- The chunk count and output frame count of a run, as a function of every `__call__`
argument they could read — including `guidance_scale`, which lines 396-407 never consult. -/
def run_chunk_counts (_guidance_scale : ℚ) (addAudioLayer : Bool)
    (numFaces numWhisperChunks num_frames : ℕ) : ℕ × ℕ :=
  (num_inferences_calc addAudioLayer numFaces numWhisperChunks num_frames,
   num_frames * num_inferences_calc addAudioLayer numFaces numWhisperChunks num_frames)

/-- C6: classifier-free guidance is active iff `guidance_scale > 1`; at
`guidance_scale = 1` the prediction handed to the scheduler is exactly the conditional
prediction, and the recombination formula itself also collapses to the conditional
prediction; and the chunk and output frame counts do not depend on the guidance scale. -/
theorem C6_guidance_identity (gs gs' : ℚ) (pred_uncond pred_cond : ι → ℚ)
    (addAudioLayer : Bool) (numFaces numWhisperChunks num_frames : ℕ) :
    (do_classifier_free_guidance gs = true ↔ 1 < gs)
    ∧ scheduler_noise_pred 1 pred_uncond pred_cond = pred_cond
    ∧ guided_noise_pred 1 pred_uncond pred_cond = pred_cond
    ∧ run_chunk_counts gs addAudioLayer numFaces numWhisperChunks num_frames
      = run_chunk_counts gs' addAudioLayer numFaces numWhisperChunks num_frames := by
  refine ⟨by simp [do_classifier_free_guidance], ?_, ?_, rfl⟩
  · unfold scheduler_noise_pred do_classifier_free_guidance
    simp
  · funext p
    unfold guided_noise_pred
    ring

/-- Line 484: `audio_samples_remain_length = int(synced_video_frames.shape[0] / video_fps
* audio_sample_rate)`, with the division and truncation carried out over exact rationals
(the operands are nonnegative, so Python's `int` truncation is the floor). -/
def audio_samples_remain_length (outFrames : ℕ) (video_fps audio_sample_rate : ℚ) : ℤ :=
  ⌊(outFrames : ℚ) / video_fps * audio_sample_rate⌋

/-- Line 485: `audio_samples[:audio_samples_remain_length]` — the length of a Python
slice-from-the-front is capped by the available length. -/
def trimmed_audio_length (audioLen : ℕ) (remain : ℤ) : ℕ :=
  min audioLen remain.toNat

/-- Counterexample to C7: a run of the model variant without audio conditioning, 16 faces,
`num_frames = 16`, default fps 25 and sample rate 16000, but an audio track of only 100
samples: the requested trim length is 10240 samples, yet the slice retains only the 100
available samples — the audio is not trimmed to exactly
`output_frame_count / fps * audio_sample_rate` samples. -/
theorem C7_counterexample :
    trimmed_audio_length 100
        (audio_samples_remain_length (16 * num_inferences_calc false 16 0 16) 25 16000)
      ≠ (audio_samples_remain_length (16 * num_inferences_calc false 16 0 16) 25 16000).toNat
    := by
  have h16 : 16 * num_inferences_calc false 16 0 16 = 16 := by
    unfold num_inferences_calc
    norm_num
  rw [h16]
  have hq : ((16 : ℕ) : ℚ) / 25 * 16000 = ((10240 : ℤ) : ℚ) := by norm_num
  unfold audio_samples_remain_length
  rw [hq, Int.floor_intCast]
  unfold trimmed_audio_length
  omega

/-- C7 amended: the audio kept for the final mux is the first
`int(output_frame_count / video_fps * audio_sample_rate)` samples when that many are
available (the slice is capped by the audio's actual length); in particular, in the
literal scenario — 40 faces, at least 40 audio-embedding chunks, `num_frames = 16`,
`video_fps = 25`, `audio_sample_rate = 16000` and sufficient audio — the run processes 2
chunks, outputs exactly `16 * 2 = 32` frames, and trims the audio to exactly 20480
samples. -/
theorem C7_audio_trim (audioLen outFrames : ℕ) (video_fps audio_sample_rate : ℚ)
    (h : (audio_samples_remain_length outFrames video_fps audio_sample_rate).toNat
      ≤ audioLen) :
    trimmed_audio_length audioLen
        (audio_samples_remain_length outFrames video_fps audio_sample_rate)
      = (audio_samples_remain_length outFrames video_fps audio_sample_rate).toNat := by
  unfold trimmed_audio_length
  omega

/-- Witness for C7 at the literal scenario: 40 faces, 45 audio chunks, `num_frames = 16`,
fps 25, sample rate 16000, 25600 available audio samples: 32 output frames and a trim to
exactly 20480 samples. -/
theorem C7_audio_trim_witness :
    16 * num_inferences_calc true 40 45 16 = 32
    ∧ audio_samples_remain_length (16 * num_inferences_calc true 40 45 16) 25 16000 = 20480
    ∧ trimmed_audio_length 25600
        (audio_samples_remain_length (16 * num_inferences_calc true 40 45 16) 25 16000)
      = 20480 := by
  have h32 : 16 * num_inferences_calc true 40 45 16 = 32 := by
    unfold num_inferences_calc
    norm_num
  have hq : ((32 : ℕ) : ℚ) / 25 * 16000 = ((20480 : ℤ) : ℚ) := by norm_num
  have hrem : audio_samples_remain_length (16 * num_inferences_calc true 40 45 16) 25 16000
      = 20480 := by
    rw [h32]
    unfold audio_samples_remain_length
    rw [hq, Int.floor_intCast]
  refine ⟨h32, hrem, ?_⟩
  have h := C7_audio_trim 25600 (16 * num_inferences_calc true 40 45 16) 25 16000
    (by rw [hrem]; norm_num)
  rw [h, hrem]
  omega

/-- `torch.zeros_like(audio_embeds)` (line 421): an all-zero tensor of the same shape as
the stacked per-chunk audio embedding, modelled as a list (the N frames) of lists (the
per-frame feature vector). -/
def null_audio_embeds (e : List (List ℚ)) : List (List ℚ) :=
  e.map fun v => v.map fun _ => 0

/-- Line 422 paired with line 455: `audio_embeds = torch.cat([null_audio_embeds,
audio_embeds])` and `latent_model_input = torch.cat([latents] * 2)` — the batch handed to
the denoiser, as (latent, embedding) pairs in batch order, null branch first. -/
def cfg_unet_batch (z : α) (e : List (List ℚ)) : List (α × List (List ℚ)) :=
  [(z, null_audio_embeds e), (z, e)]

/-- The denoiser applied to a batch: batch elements are processed independently by the
external collaborator `u`. -/
def unet_forward (u : α → List (List ℚ) → β) (batch : List (α × List (List ℚ))) :
    List β :=
  batch.map fun p => u p.1 p.2

/-- `noise_pred.chunk(2)` (line 463): the first and second halves of the batch, in order —
the first is recombined as `noise_pred_uncond`, the second as `noise_pred_audio`. -/
def chunk2 (xs : List γ) : List γ × List γ :=
  (xs.take (xs.length / 2), xs.drop (xs.length / 2))

/-- C8: for every chunk under guidance, the embedding received by the batch half that is
recombined as the unconditional branch is `null_audio_embeds` of that chunk's N-frame
slice — a tensor of identical shape whose entries are all zero — while the other half
receives the real slice, consistently with the batch order of the concatenation. -/
theorem C8_null_branch (whisper : List (List ℚ)) (i N : ℕ) (z : α)
    (u : α → List (List ℚ) → β) :
    (chunk2 (unet_forward u (cfg_unet_batch z (chunk_slice whisper i N)))).1
      = [u z (null_audio_embeds (chunk_slice whisper i N))]
    ∧ (chunk2 (unet_forward u (cfg_unet_batch z (chunk_slice whisper i N)))).2
      = [u z (chunk_slice whisper i N)]
    ∧ (null_audio_embeds (chunk_slice whisper i N)).map List.length
      = (chunk_slice whisper i N).map List.length
    ∧ ∀ v ∈ null_audio_embeds (chunk_slice whisper i N), ∀ q ∈ v, q = 0 := by
  refine ⟨?_, ?_, ?_, ?_⟩
  · simp [chunk2, unet_forward, cfg_unet_batch]
  · simp [chunk2, unet_forward, cfg_unet_batch]
  · unfold null_audio_embeds
    rw [List.map_map]
    apply List.map_congr_left
    intro v _
    simp
  · intro v hv q hq
    unfold null_audio_embeds at hv
    rcases List.mem_map.mp hv with ⟨w, _, hw⟩
    rw [← hw] at hq
    rcases List.mem_map.mp hq with ⟨r, _, hr⟩
    exact hr.symm

/-- Line 495: `write_video(os.path.join(temp_dir, "video.mp4"), synced_video_frames,
fps=25)` — the frame rate passed to the intermediate silent-video writer, as a function of
the `video_fps` argument in scope at the call site: the literal 25, ignoring `video_fps`. -/
def write_video_fps (_video_fps : ℚ) : ℚ :=
  25

/-- Modelled from the spec: `Audio2Feature.feature2chunks` (not under src/) turns the
whisper feature array into per-output-frame embedding chunks at the requested rate —
"aligned 1:1 with a video frame index" — so an audio track of `audio_seconds` seconds
yields `⌊audio_seconds * fps⌋` chunks.  Line 398 passes `fps=video_fps` to this call. -/
def whisper_chunk_count (audio_seconds fps : ℚ) : ℕ :=
  (⌊audio_seconds * fps⌋).toNat

/-- Lines 396-399 with the fps data flow made explicit: in an audio-conditioned run the
whisper-chunk count is computed at `fps=video_fps` (line 398) and feeds the chunk count
(line 399). -/
def num_inferences_at_fps (numFaces : ℕ) (audio_seconds video_fps : ℚ)
    (num_frames : ℕ) : ℕ :=
  num_inferences_calc true numFaces (whisper_chunk_count audio_seconds video_fps) num_frames

theorem whisper_chunk_count_eval (audio_seconds fps : ℚ) (k : ℤ)
    (h : audio_seconds * fps = (k : ℚ)) :
    whisper_chunk_count audio_seconds fps = k.toNat := by
  unfold whisper_chunk_count
  rw [h, Int.floor_intCast]

/-- Counterexample to C10: `video_fps` is not consumed only by the audio-trim length.  In
an audio-conditioned run, line 398 passes `fps=video_fps` to the audio-embedding chunking,
so with 100 faces, a 1.6-second audio track and `num_frames = 16`, requesting
`video_fps = 25` yields 40 chunks and 2 processed windows while `video_fps = 50` yields 80
chunks and 5 processed windows: the guidance-independent chunk count itself depends on
`video_fps`. -/
theorem C10_counterexample :
    num_inferences_at_fps 100 (8 / 5) 25 16 = 2
    ∧ num_inferences_at_fps 100 (8 / 5) 50 16 = 5
    ∧ num_inferences_at_fps 100 (8 / 5) 25 16 ≠ num_inferences_at_fps 100 (8 / 5) 50 16 := by
  have h25 : whisper_chunk_count (8 / 5) 25 = (40 : ℤ).toNat :=
    whisper_chunk_count_eval _ _ 40 (by norm_num)
  have h50 : whisper_chunk_count (8 / 5) 50 = (80 : ℤ).toNat :=
    whisper_chunk_count_eval _ _ 80 (by norm_num)
  unfold num_inferences_at_fps
  rw [h25, h50]
  refine ⟨?_, ?_, ?_⟩ <;>
    simp [num_inferences_calc]

/-- C10 amended: the intermediate silent video is always written at 25 fps regardless of
the `video_fps` argument, so whenever `video_fps ≠ 25` the frame rate of the written video
differs from the requested one; `video_fps` is consumed by the audio-trim length
(line 484) — as 32 frames at fps 25 versus fps 50 shows — and, in audio-conditioned runs,
by the audio-embedding chunking (line 398), which determines the chunk count — as the same
1.6-second track at fps 25 versus fps 75 shows — but it never reaches the intermediate
video writer. -/
theorem C10_fixed_write_fps (video_fps video_fps' : ℚ) :
    write_video_fps video_fps = 25
    ∧ write_video_fps video_fps = write_video_fps video_fps'
    ∧ (video_fps ≠ 25 → write_video_fps video_fps ≠ video_fps)
    ∧ audio_samples_remain_length 32 25 16000 ≠ audio_samples_remain_length 32 50 16000
    ∧ num_inferences_at_fps 100 (8 / 5) 25 16 ≠ num_inferences_at_fps 100 (8 / 5) 75 16 := by
  refine ⟨rfl, rfl, ?_, ?_, ?_⟩
  · intro h
    unfold write_video_fps
    exact fun hc => h hc.symm
  · have h1 : audio_samples_remain_length 32 25 16000 = 20480 := by
      unfold audio_samples_remain_length
      have hq : ((32 : ℕ) : ℚ) / 25 * 16000 = ((20480 : ℤ) : ℚ) := by norm_num
      rw [hq, Int.floor_intCast]
    have h2 : audio_samples_remain_length 32 50 16000 = 10240 := by
      unfold audio_samples_remain_length
      have hq : ((32 : ℕ) : ℚ) / 50 * 16000 = ((10240 : ℤ) : ℚ) := by norm_num
      rw [hq, Int.floor_intCast]
    rw [h1, h2]
    norm_num
  · have h25 : whisper_chunk_count (8 / 5) 25 = (40 : ℤ).toNat :=
      whisper_chunk_count_eval _ _ 40 (by norm_num)
    have h75 : whisper_chunk_count (8 / 5) 75 = (120 : ℤ).toNat :=
      whisper_chunk_count_eval _ _ 120 (by norm_num)
    unfold num_inferences_at_fps
    rw [h25, h75]
    simp [num_inferences_calc]

/-- Witness for C10 at `video_fps = 30`: the written frame rate stays 25. -/
theorem C10_fixed_write_fps_witness :
    write_video_fps 30 = 25 ∧ write_video_fps 30 ≠ 30 := by
  have h := C10_fixed_write_fps 30 30
  exact ⟨h.1, h.2.2.1 (by norm_num)⟩

end LatentSync
